import Mathlib

/-!
Verification of the sphere-fitting kernel of `SphereModule.py`
(`SphereModuleLogic.getCenterOfMass` and `SphereModuleLogic.process`).

Points are modelled with exact rational coordinates; the one square root
in the source (`np.linalg.norm`) lands in the reals.  The logic object's
only piece of instance state, `self.centerOfMass`, is threaded
explicitly as a `LogicState`.  The two `ValueError`s that the source can
raise, together with the `AttributeError` that a `None` markups node
triggers inside `getCenterOfMass`, are modelled as a small error type,
and `process` returns an `Except` of the final content of the output
model node (geometry parameters plus display style).
-/

/-- A 3D point with exact rational coordinates (source: fiducial control
point positions, Python floats). -/
structure Point3 where
  x : ℚ
  y : ℚ
  z : ℚ
deriving DecidableEq, Repr

/-- An ordered sequence of control points, the content of a
`vtkMRMLMarkupsFiducialNode`. -/
abbrev PointSet := List Point3

/-- Errors the modelled code can raise.  `valueError` covers the two
explicit `raise ValueError(...)` statements of `process`;
`attributeError` is what Python raises when `getCenterOfMass`
dereferences a `None` markups node. -/
inductive PyError where
  | valueError (msg : String)
  | attributeError (msg : String)
deriving DecidableEq, Repr

/-- The error the spec calls `InvalidInputError`: source line 359,
`raise ValueError("Input markups or output model is invalid")`. -/
def invalidInputError : PyError :=
  PyError.valueError "Input markups or output model is invalid"

/-- The error the spec calls `InsufficientInputError`: source line 364,
`raise ValueError("At least two points are required.")`. -/
def insufficientInputError : PyError :=
  PyError.valueError "At least two points are required."

/-- The instance state of `SphereModuleLogic` that `process` touches:
the attribute `self.centerOfMass`, absent on a fresh logic object. -/
structure LogicState where
  centerOfMass : Option Point3
deriving DecidableEq, Repr

/-- The configuration of the `vtkSphereSource` built by `process`
(source lines 377-382): center, radius, and the two angular
resolutions. -/
structure SphereSource where
  center : Point3
  radius : ℝ
  thetaResolution : ℕ
  phiResolution : ℕ

/-- The display properties `process` sets on the output model's display
node (source lines 389-394). -/
structure DisplayStyle where
  color : Point3
  opacity : ℚ
  sliceIntersectionThickness : ℕ
  visibility2D : Bool
deriving DecidableEq, Repr

/-- The final content of the output model node after a successful
`process` call: the sphere geometry and the display style. -/
structure ModelNodeState where
  polyData : SphereSource
  display : DisplayStyle

/-- Source lines 322-333 (`getCenterOfMass` on a non-null node): return
`[0,0,0]` when there are no control points, otherwise sum all control
point positions and divide by the count. -/
def getCenterOfMass (points : PointSet) : Point3 :=
  let num := points.length
  if num = 0 then
    ⟨0, 0, 0⟩
  else
    let sumPos := points.foldl
      (fun (s p : Point3) => ⟨s.x + p.x, s.y + p.y, s.z + p.z⟩)
      (⟨0, 0, 0⟩ : Point3)
    ⟨sumPos.x / num, sumPos.y / num, sumPos.z / num⟩

/-- The Euclidean norm `np.linalg.norm` of a 3-vector (source
line 374). -/
noncomputable def vecNorm (v : Point3) : ℝ :=
  Real.sqrt ((v.x : ℝ) ^ 2 + (v.y : ℝ) ^ 2 + (v.z : ℝ) ^ 2)

/-- Source lines 336-394, `SphereModuleLogic.process`.

The flow of the source, in order: (1) line 355 assigns
`self.centerOfMass = self.getCenterOfMass(inputMarkups)` — on a `None`
markups node this raises `AttributeError` inside `getCenterOfMass`
before the assignment happens, so the state is returned unchanged;
(2) line 358 checks `not inputMarkups or not outputModel` (only the
output-model half is still reachable); (3) lines 362-364 check the
point count; (4) lines 366-374 read the first two control points and
compute midpoint and half-distance; (5) lines 377-394 build the sphere
source and the display style. -/
noncomputable def process (self : LogicState) (inputMarkups : Option PointSet)
    (outputModel : Option Unit) (imageThreshold : ℚ) :
    LogicState × Except PyError ModelNodeState :=
  match inputMarkups with
  | none =>
      (self, Except.error (PyError.attributeError
        "NoneType object has no attribute GetNumberOfControlPoints"))
  | some pts =>
      let self := { self with centerOfMass := some (getCenterOfMass pts) }
      if outputModel = none then
        (self, Except.error invalidInputError)
      else if pts.length < 2 then
        (self, Except.error insufficientInputError)
      else
        let p0 := pts.getD 0 ⟨0, 0, 0⟩
        let p1 := pts.getD 1 ⟨0, 0, 0⟩
        let center : Point3 :=
          ⟨(p0.x + p1.x) / 2, (p0.y + p1.y) / 2, (p0.z + p1.z) / 2⟩
        let radius : ℝ :=
          vecNorm ⟨p0.x - p1.x, p0.y - p1.y, p0.z - p1.z⟩ / 2
        let sphere : SphereSource := ⟨center, radius, 64, 64⟩
        let display : DisplayStyle :=
          ⟨⟨1/10, 6/10, 9/10⟩, imageThreshold, 2, true⟩
        (self, Except.ok ⟨sphere, display⟩)

/-- Spec-side definition (§4.1): the midpoint
`((p0.x+p1.x)/2, (p0.y+p1.y)/2, (p0.z+p1.z)/2)`. -/
def specMidpoint (p q : Point3) : Point3 :=
  ⟨(p.x + q.x) / 2, (p.y + q.y) / 2, (p.z + q.z) / 2⟩

/-- Spec-side definition (§4.1): the Euclidean distance between two
points. -/
noncomputable def specEuclidDist (p q : Point3) : ℝ :=
  Real.sqrt (((p.x : ℝ) - q.x) ^ 2 + ((p.y : ℝ) - q.y) ^ 2
    + ((p.z : ℝ) - q.z) ^ 2)

/-- Spec-side definition (§4.1): the coordinate-wise arithmetic mean of
a point set. -/
def specMean (points : PointSet) : Point3 :=
  ⟨(points.map Point3.x).sum / points.length,
   (points.map Point3.y).sum / points.length,
   (points.map Point3.z).sum / points.length⟩

/-- The accumulation loop of `getCenterOfMass` computes the
coordinate-wise sums. -/
theorem foldl_sum_eq (pts : PointSet) (init : Point3) :
    pts.foldl (fun (s p : Point3) => ⟨s.x + p.x, s.y + p.y, s.z + p.z⟩) init =
      ⟨init.x + (pts.map Point3.x).sum, init.y + (pts.map Point3.y).sum,
        init.z + (pts.map Point3.z).sum⟩ := by
  induction pts generalizing init with
  | nil => simp
  | cons p rest ih =>
      simp only [List.foldl_cons, List.map_cons, List.sum_cons, ih]
      congr 1 <;> ring

/-- The loop of `getCenterOfMass` computes exactly the coordinate-wise
arithmetic mean on any non-empty point set. -/
theorem getCenterOfMass_eq_specMean (p : Point3) (rest : PointSet) :
    getCenterOfMass (p :: rest) = specMean (p :: rest) := by
  simp only [getCenterOfMass, specMean, List.length_cons]
  rw [foldl_sum_eq]
  simp

/-- The second component of `process` (the Except result) does not
depend on the incoming logic state. -/
theorem process_result_state_independent (s1 s2 : LogicState)
    (inp : Option PointSet) (out : Option Unit) (t : ℚ) :
    (process s1 inp out t).2 = (process s2 inp out t).2 := by
  cases inp with
  | none => rfl
  | some pts =>
      cases out with
      | none => rfl
      | some u =>
          by_cases h : pts.length < 2 <;> simp [process, h]

/-- Unfolding of `process` on the success path: a present output model
and at least two control points. -/
theorem process_cons_cons (s : LogicState) (p0 p1 : Point3)
    (rest : PointSet) (out : Unit) (t : ℚ) :
    process s (some (p0 :: p1 :: rest)) (some out) t =
      (⟨some (getCenterOfMass (p0 :: p1 :: rest))⟩,
        Except.ok
          ⟨⟨⟨(p0.x + p1.x) / 2, (p0.y + p1.y) / 2, (p0.z + p1.z) / 2⟩,
            vecNorm ⟨p0.x - p1.x, p0.y - p1.y, p0.z - p1.z⟩ / 2, 64, 64⟩,
          ⟨⟨1/10, 6/10, 9/10⟩, t, 2, true⟩⟩) := by
  simp only [process]
  rw [if_neg (by simp), if_neg (by simp only [List.length_cons]; omega)]
  rfl

/-- C1: for every PointSet with at least two points, the sphere fit of
`process` uses exactly the first two points p0 and p1 in insertion
order (the tail is ignored): the center is the midpoint of p0 and p1
and the radius is half their Euclidean distance. -/
theorem process_fitSphere_first_two (s : LogicState) (p0 p1 : Point3)
    (rest : PointSet) (out : Unit) (t : ℚ) :
    (process s (some (p0 :: p1 :: rest)) (some out) t).2.map
        (fun m => (m.polyData.center, m.polyData.radius)) =
      Except.ok (specMidpoint p0 p1, specEuclidDist p0 p1 / 2) := by
  rw [process_cons_cons]
  simp only [Except.map, specMidpoint, specEuclidDist, vecNorm,
    Except.ok.injEq, Prod.mk.injEq]
  refine ⟨trivial, ?_⟩
  push_cast
  ring_nf

/-- C2: `getCenterOfMass` returns (0,0,0) on the empty PointSet, and on
every PointSet of size at least 1 it returns the coordinate-wise
arithmetic mean of all its points. -/
theorem getCenterOfMass_mean :
    getCenterOfMass [] = ⟨0, 0, 0⟩ ∧
      ∀ (p : Point3) (rest : PointSet),
        getCenterOfMass (p :: rest) = specMean (p :: rest) :=
  ⟨rfl, getCenterOfMass_eq_specMean⟩

/-- C3: for every PointSet with fewer than two points (and a present
output model), the sphere-fitting step of `process` fails with
`InsufficientInputError` instead of producing a sphere. -/
theorem process_short_insufficient (s : LogicState) (pts : PointSet)
    (out : Unit) (t : ℚ) (h : pts.length < 2) :
    (process s (some pts) (some out) t).2 =
      Except.error insufficientInputError := by
  simp [process, h]

/-- Witness for C3 at the one-point set. -/
theorem process_short_insufficient_witness :
    ([(⟨0, 0, 0⟩ : Point3)] : PointSet).length < 2 ∧
      (process ⟨none⟩ (some [⟨0, 0, 0⟩]) (some ()) (1/2)).2 =
        Except.error insufficientInputError :=
  ⟨by decide,
    process_short_insufficient ⟨none⟩ [⟨0, 0, 0⟩] () (1/2) (by decide)⟩

/-- C4 (code bug): calling `process` with a null markups node raises an
AttributeError inside `getCenterOfMass` (line 355 dereferences the null
node) before the null-validation of line 358 is reached, so the call
does not fail with `InvalidInputError` as the claim states. -/
theorem process_null_markups_attribute_error :
    (process ⟨none⟩ none (some ()) (1/2)).2 =
        Except.error (PyError.attributeError
          "NoneType object has no attribute GetNumberOfControlPoints") ∧
      (process ⟨none⟩ none (some ()) (1/2)).2 ≠
        Except.error invalidInputError := by
  refine ⟨rfl, ?_⟩
  simp [process, invalidInputError]

/-- C5: for every PointSet of size 0 or 1, `process` still computes and
stores the center of mass before the point-count validation fails with
`InsufficientInputError`, and no other result is produced. -/
theorem process_com_before_count (s : LogicState) (pts : PointSet)
    (out : Unit) (t : ℚ) (h : pts.length < 2) :
    (process s (some pts) (some out) t).1.centerOfMass =
        some (getCenterOfMass pts) ∧
      (process s (some pts) (some out) t).2 =
        Except.error insufficientInputError := by
  constructor <;> simp [process, h]

/-- Witness for C5 at the empty set. -/
theorem process_com_before_count_witness :
    ([] : PointSet).length < 2 ∧
      ((process ⟨none⟩ (some []) (some ()) (1/2)).1.centerOfMass =
          some (getCenterOfMass []) ∧
        (process ⟨none⟩ (some []) (some ()) (1/2)).2 =
          Except.error insufficientInputError) :=
  ⟨by decide, process_com_before_count ⟨none⟩ [] () (1/2) (by decide)⟩

/-- C6: for coincident first two points, `process` succeeds with a
degenerate sphere of radius 0 at the 64 by 64 resolution; this is not
an error state. -/
theorem process_coincident_degenerate (s : LogicState) (p : Point3)
    (rest : PointSet) (out : Unit) (t : ℚ) :
    (process s (some (p :: p :: rest)) (some out) t).2.map
        (fun m => (m.polyData.radius, m.polyData.thetaResolution,
          m.polyData.phiResolution)) =
      Except.ok (0, 64, 64) := by
  rw [process_cons_cons]
  simp [vecNorm, Except.map]

/-- C7: every successful `process` call produces a mesh at resolution
64 by 64 with display style color (0.1, 0.6, 0.9), opacity equal to the
caller-supplied imageThreshold, slice-intersection thickness 2, and 2D
visibility on. -/
theorem process_mesh_display (s : LogicState) (p0 p1 : Point3)
    (rest : PointSet) (out : Unit) (t : ℚ) :
    (process s (some (p0 :: p1 :: rest)) (some out) t).2.map
        (fun m => (m.polyData.thetaResolution, m.polyData.phiResolution,
          m.display)) =
      Except.ok (64, 64, ⟨⟨1/10, 6/10, 9/10⟩, t, 2, true⟩) := by
  rw [process_cons_cons]
  rfl

/-- C8 counterexample: swapping the two tail points of this four-point
set does not change `getCenterOfMass`, refuting the claim that
reordering points 3..N changes the center of mass. -/
theorem getCenterOfMass_reorder_counterexample :
    getCenterOfMass [⟨0, 0, 0⟩, ⟨1, 0, 0⟩, ⟨3, 0, 0⟩, ⟨2, 0, 0⟩] =
        getCenterOfMass [⟨0, 0, 0⟩, ⟨1, 0, 0⟩, ⟨2, 0, 0⟩, ⟨3, 0, 0⟩] ∧
      (⟨3, 0, 0⟩ : Point3) ≠ ⟨2, 0, 0⟩ := by
  constructor
  · simp only [getCenterOfMass, List.length_cons, List.foldl_cons,
      List.foldl_nil]
    norm_num
  · simp only [ne_eq, Point3.mk.injEq, not_and]
    norm_num

/-- C8 amended: reordering points 3..N of a PointSet never changes
`getCenterOfMass` (the mean is permutation-invariant in exact
arithmetic) and never changes the result of the sphere fit, which
depends only on points 0 and 1. -/
theorem process_tail_reorder_invariant (s : LogicState) (p0 p1 : Point3)
    (tail tail2 : PointSet) (out : Unit) (t : ℚ)
    (h : List.Perm tail tail2) :
    getCenterOfMass (p0 :: p1 :: tail) =
        getCenterOfMass (p0 :: p1 :: tail2) ∧
      (process s (some (p0 :: p1 :: tail)) (some out) t).2 =
        (process s (some (p0 :: p1 :: tail2)) (some out) t).2 := by
  have hperm : List.Perm (p0 :: p1 :: tail) (p0 :: p1 :: tail2) :=
    (h.cons p1).cons p0
  constructor
  · rw [getCenterOfMass_eq_specMean, getCenterOfMass_eq_specMean]
    simp only [specMean]
    rw [(hperm.map Point3.x).sum_eq, (hperm.map Point3.y).sum_eq,
      (hperm.map Point3.z).sum_eq, hperm.length_eq]
  · rw [process_cons_cons, process_cons_cons]

/-- Witness for C8 amended on a concrete swap of the tail. -/
theorem process_tail_reorder_invariant_witness :
    List.Perm [(⟨2, 0, 0⟩ : Point3), ⟨3, 0, 0⟩] [⟨3, 0, 0⟩, ⟨2, 0, 0⟩] ∧
      (getCenterOfMass [⟨0, 0, 0⟩, ⟨1, 0, 0⟩, ⟨2, 0, 0⟩, ⟨3, 0, 0⟩] =
          getCenterOfMass [⟨0, 0, 0⟩, ⟨1, 0, 0⟩, ⟨3, 0, 0⟩, ⟨2, 0, 0⟩] ∧
        (process ⟨none⟩
            (some [⟨0, 0, 0⟩, ⟨1, 0, 0⟩, ⟨2, 0, 0⟩, ⟨3, 0, 0⟩])
            (some ()) (1/2)).2 =
          (process ⟨none⟩
            (some [⟨0, 0, 0⟩, ⟨1, 0, 0⟩, ⟨3, 0, 0⟩, ⟨2, 0, 0⟩])
            (some ()) (1/2)).2) :=
  ⟨List.Perm.swap _ _ _,
    process_tail_reorder_invariant ⟨none⟩ ⟨0, 0, 0⟩ ⟨1, 0, 0⟩
      [⟨2, 0, 0⟩, ⟨3, 0, 0⟩] [⟨3, 0, 0⟩, ⟨2, 0, 0⟩] () (1/2)
      (List.Perm.swap _ _ _)⟩

/-- After any call of `process` on a present PointSet, the stored
center of mass is `getCenterOfMass pts`, whatever the incoming state
and the other arguments. -/
theorem process_state_some (s : LogicState) (pts : PointSet)
    (out : Option Unit) (t : ℚ) :
    (process s (some pts) out t).1 = ⟨some (getCenterOfMass pts)⟩ := by
  cases out with
  | none => rfl
  | some u => by_cases h : pts.length < 2 <;> simp [process, h]

/-- C9: `process` is a pure function of its inputs — for identical
PointSet and imageThreshold arguments, both the Except result (the
sphere descriptor and display) and the stored CenterOfMass are
independent of the prior logic state, and an immediate second call with
the same inputs yields the identical result and CenterOfMass. -/
theorem process_deterministic (s1 s2 : LogicState) (pts : PointSet)
    (out : Option Unit) (t : ℚ) :
    ((process s1 (some pts) out t).2 = (process s2 (some pts) out t).2 ∧
      (process s1 (some pts) out t).1.centerOfMass =
        (process s2 (some pts) out t).1.centerOfMass) ∧
    ((process (process s1 (some pts) out t).1 (some pts) out t).2 =
        (process s1 (some pts) out t).2 ∧
      (process (process s1 (some pts) out t).1 (some pts) out t).1.centerOfMass =
        (process s1 (some pts) out t).1.centerOfMass) :=
  ⟨⟨process_result_state_independent s1 s2 (some pts) out t,
      by rw [process_state_some, process_state_some]⟩,
    ⟨process_result_state_independent (process s1 (some pts) out t).1 s1
        (some pts) out t,
      by rw [process_state_some, process_state_some]⟩⟩

/-- C10: `process` imposes no precondition on imageThreshold — for
every rational value, including values outside [0,1], a call with at
least two points succeeds and the value is applied unchanged as the
display opacity. -/
theorem process_threshold_unconstrained (s : LogicState) (p0 p1 : Point3)
    (rest : PointSet) (out : Unit) (t : ℚ) :
    (process s (some (p0 :: p1 :: rest)) (some out) t).2.map
        (fun m => m.display.opacity) = Except.ok t := by
  rw [process_cons_cons]
  rfl
